import Mathlib

/-!
Verification of the Jira issue agent (`src/agent.py`).

The agent dispatches a natural-language question either to a single-record
lookup (when a Jira issue key such as `SUP-129` occurs in the text) or to a
search, applies a fixed rule table to the retrieved record to produce
suggestion entries, and formats the result as a display string.

Python dictionaries with a known shape are embedded as structures with
`Option` fields; the chained `dict.get` accesses with fallback defaults
become `Option.getD` chains.  The external MCP provider is a parameter: a
pair of functions returning `Except String _`, where `Except.error`
stands for the Python exception raised by the provider call.  Character
classes are the ASCII ones (`Char.isUpper`, `Char.isDigit`), matching the
behaviour of the Python pattern on ASCII input.
-/

namespace JiraAgent

/-- A nested JSON object holding a `name` field, as in
`{"name": "Bug"}` under `issuetype` or `priority`. -/
structure NameObj where
  name : Option String := none
deriving DecidableEq, Repr

/-- The `fields` sub-dictionary of a Jira record. -/
structure Fields where
  issuetype : Option NameObj := none
  priority : Option NameObj := none
  summary : Option String := none
  description : Option String := none
deriving DecidableEq, Repr

/-- One issue record as returned by the provider.  `error` models an
optional top-level `"error"` key of the dictionary: `some msg` when the
key is present with value `msg`, `none` when absent. -/
structure Record where
  key : Option String := none
  fields : Option Fields := none
  error : Option String := none
deriving DecidableEq, Repr

/-- `issue_data.get("fields", {}).get("issuetype", {}).get("name", "")`. -/
def Record.issueTypeName (r : Record) : String :=
  (((r.fields.getD {}).issuetype).getD {}).name.getD ""

/-- `issue_data.get("fields", {}).get("priority", {}).get("name", "")`. -/
def Record.priorityName (r : Record) : String :=
  (((r.fields.getD {}).priority).getD {}).name.getD ""

/-- `issue_data.get("fields", {}).get("description", "")`. -/
def Record.descriptionText (r : Record) : String :=
  (r.fields.getD {}).description.getD ""

/-- `issue_data.get("fields", {}).get("summary", "No summary")`. -/
def Record.summaryText (r : Record) : String :=
  (r.fields.getD {}).summary.getD "No summary"

/-- Which extra tag a solution dictionary carries: the urgency entries
have a `"priority"` key (`"low"` or `"high"`), the type-specific entries
a `"type"` key (`"debugging"` or `"implementation"`). -/
inductive SolKind where
  | urgency (level : String)
  | typed (category : String)
deriving DecidableEq, Repr

/-- One suggestion dictionary produced by `suggest_solutions`: its tag
key, its `"suggestion"` value and its `"action"` value. -/
structure Solution where
  kind : SolKind
  suggestion : String
  action : String
deriving DecidableEq, Repr

/-- Is this one of the two urgency-band entries (a dict with a
`"priority"` key)? -/
def isUrgencySolution (s : Solution) : Bool :=
  match s.kind with
  | SolKind.urgency _ => true
  | SolKind.typed _ => false

/-- The low-urgency entry appended when the priority score is ≤ 3. -/
def lowUrgencySolution : Solution :=
  { kind := SolKind.urgency "low"
    suggestion := "This is a low priority issue. Consider addressing after critical items."
    action := "Schedule for next sprint" }

/-- The high-urgency entry appended when the priority score is > 3. -/
def highUrgencySolution : Solution :=
  { kind := SolKind.urgency "high"
    suggestion := "This is a high priority issue requiring immediate attention."
    action := "Escalate to team lead and address immediately" }

/-- The entry appended when the issue type is exactly `"Bug"`. -/
def debuggingSolution : Solution :=
  { kind := SolKind.typed "debugging"
    suggestion := "Review recent code changes and check error logs"
    action := "Run diagnostic tests and reproduce the issue" }

/-- The entry appended when the issue type is exactly `"Story"`. -/
def implementationSolution : Solution :=
  { kind := SolKind.typed "implementation"
    suggestion := "Break down into smaller tasks and estimate effort"
    action := "Create subtasks and assign to team members" }

/-- The `priority_scores` dictionary lookup with default 0:
`priority_scores.get(priority, 0)`. -/
def priority_scores (p : String) : Nat :=
  if p = "Highest" then 5
  else if p = "High" then 4
  else if p = "Medium" then 3
  else if p = "Low" then 2
  else if p = "Lowest" then 1
  else 0

/-- `JiraIssueAgent.suggest_solutions`: one urgency entry chosen by the
priority score, then a type-specific entry for `"Bug"` or `"Story"`.
The `description` field is read into a local (as in the source) but never
used. -/
def suggest_solutions (issue_data : Record) : List Solution :=
  let issue_type := issue_data.issueTypeName
  let priority := issue_data.priorityName
  let _description := issue_data.descriptionText
  let solutions : List Solution :=
    if priority_scores priority ≤ 3 then
      [lowUrgencySolution]
    else
      [highUrgencySolution]
  solutions ++
    (if issue_type = "Bug" then [debuggingSolution]
     else if issue_type = "Story" then [implementationSolution]
     else [])

/-! ### The issue-key extractor

`_extract_issue_key` runs `re.search` with the pattern
`\b[A-Z]+-\d+\b` and returns the matched text of the first match, or
`None`.  For this pattern backtracking never changes the outcome: the
uppercase run is maximal (a shorter run is followed by an uppercase
letter, never by `-`) and the digit run is maximal (a shorter run is
followed by a digit, which is a word character, so the trailing `\b`
fails as well).  Hence the match attempt at a position is the
deterministic function `matchAt`, and `re.search` is the scan
`searchFrom` over start positions from the left. -/

/-- Python `\w` on ASCII: letters, digits and underscore. -/
def isWordChar (c : Char) : Bool :=
  c.isAlphanum || c == '_'

/-- `\b` between two positions: exactly one side is a word character
(`none` is an edge of the string, a non-word side). -/
def isBoundary (a b : Option Char) : Bool :=
  (a.elim false isWordChar) != (b.elim false isWordChar)

/-- Attempt to match `\b[A-Z]+-\d+\b` at the start of `s`, where `prev`
is the character just before `s` in the full text (`none` at the start
of the text).  Returns the matched characters. -/
def matchAt (prev : Option Char) (s : List Char) : Option (List Char) :=
  let ups := s.takeWhile Char.isUpper
  let rest1 := s.dropWhile Char.isUpper
  if isBoundary prev s.head? = true ∧ ups ≠ [] then
    match rest1 with
    | '-' :: rest2 =>
      let digs := rest2.takeWhile Char.isDigit
      let rest3 := rest2.dropWhile Char.isDigit
      if digs ≠ [] ∧ isBoundary digs.getLast? rest3.head? = true then
        some (ups ++ '-' :: digs)
      else none
    | _ => none
  else none

/-- `re.search`: try `matchAt` at each start position from the left,
threading the preceding character for the `\b` test. -/
def searchFrom (prev : Option Char) (s : List Char) : Option (List Char) :=
  match matchAt prev s with
  | some m => some m
  | none =>
    match s with
    | [] => none
    | c :: rest => searchFrom (some c) rest

/-- `JiraIssueAgent._extract_issue_key`: the text of the first
`\b[A-Z]+-\d+\b` match, if any. -/
def extract_issue_key (text : String) : Option String :=
  (searchFrom none text.toList).map (fun l => String.mk l)

/-- The bare identifier pattern `[A-Z]+-\d+` (no word boundaries), as
the spec describes it: one or more uppercase letters, a hyphen, one or
more digits.  A list of characters matches iff it splits as a nonempty
uppercase run, `-`, and a nonempty digit run. -/
def patternMatches (l : List Char) : Bool :=
  match l.takeWhile Char.isUpper, l.dropWhile Char.isUpper with
  | _ :: _, '-' :: rest2 => !rest2.isEmpty && rest2.all Char.isDigit
  | _, _ => false

/-! ### The lookup client and the dispatcher -/

/-- The provider response to `atlassian_search_issues`: a dictionary
with an optional `"issues"` key. -/
structure SearchResp where
  issues : Option (List Record) := none

/-- The external MCP provider, as seen through `mcp_client.call_tool`.
`Except.error reason` stands for the call raising an exception whose
string form is `reason`. -/
structure Provider where
  getIssue : String → Except String Record
  searchIssues : String → Nat → Except String SearchResp

/-- `JiraIssueAgent.get_issue_details`: the provider response on
success, and on exception the dictionary
`{"error": "Failed to get issue details: " + reason}`. -/
def get_issue_details (p : Provider) (issue_key : String) : Record :=
  match p.getIssue issue_key with
  | Except.ok response => response
  | Except.error e => { error := some ("Failed to get issue details: " ++ e) }

/-- The value returned by `search_jira_issues`: either the list under
the `"issues"` key, or the error dictionary built from an exception. -/
inductive SearchOutcome where
  | issues (rs : List Record)
  | errorDict (msg : String)
deriving DecidableEq

/-- `JiraIssueAgent.search_jira_issues`: `response.get("issues", [])`
on success, and on exception the dictionary
`{"error": "Failed to search issues: " + reason}`. -/
def search_jira_issues (p : Provider) (query : String) (max_results : Nat) : SearchOutcome :=
  match p.searchIssues query max_results with
  | Except.ok response => SearchOutcome.issues (response.issues.getD [])
  | Except.error e => SearchOutcome.errorDict ("Failed to search issues: " ++ e)

/-! ### The formatters -/

/-- One line of the search listing: `- {key}: {summary}` and a
newline. -/
def searchResultLine (issue : Record) : String :=
  "- " ++ issue.key.getD "Unknown" ++ ": " ++ issue.summaryText ++ "\n"

/-- `JiraIssueAgent._format_search_results`: the fixed no-results
message on an empty list, otherwise a count header followed by a line
for each of the first five records. -/
def format_search_results (results : List Record) : String :=
  if results = [] then
    "No issues found matching your query."
  else
    (results.take 5).foldl (fun response issue => response ++ searchResultLine issue)
      ("Found " ++ toString results.length ++ " issue(s):\n\n")

/-- One numbered block of the solutions listing. -/
def solutionBlock (idx : Nat) (sol : Solution) : String :=
  toString idx ++ ". " ++ sol.suggestion ++ "\n" ++
    "   Action: " ++ sol.action ++ "\n\n"

/-- `JiraIssueAgent._format_response`: issue header, summary, then the
solutions as a numbered list starting at 1. -/
def format_response (issue_data : Record) (solutions : List Solution) : String :=
  let issue_key := issue_data.key.getD "Unknown"
  let summary := issue_data.summaryText
  let response :=
    "**Issue: " ++ issue_key ++ "**\n" ++
      "Summary: " ++ summary ++ "\n\n" ++
      "**Suggested Solutions:**\n"
  (solutions.enumFrom 1).foldl
    (fun resp pair => resp ++ solutionBlock pair.1 pair.2) response

/-! ### The dispatcher -/

/-- A provider call made while processing one question, for stating
which lookups the dispatcher performs. -/
inductive ProviderCall where
  | getIssue (issue_key : String)
  | search (jql : String) (max_results : Nat)
deriving DecidableEq, Repr

/-- `JiraIssueAgent.process_question`, instrumented: the returned
string together with the list of provider calls made.  When the text
holds an issue key the dispatcher looks the key up and either formats
the record with its suggestions or reports the error; otherwise it
searches with the whole question (default limit 10) and either formats
the results or reports the error. -/
def process_question_t (p : Provider) (question : String) : String × List ProviderCall :=
  match extract_issue_key question with
  | some issue_key =>
    let issue_data := get_issue_details p issue_key
    let result :=
      if issue_data.error = none then
        format_response issue_data (suggest_solutions issue_data)
      else
        "Could not retrieve issue " ++ issue_key ++ ": " ++ issue_data.error.getD ""
    (result, [ProviderCall.getIssue issue_key])
  | none =>
    match search_jira_issues p question 10 with
    | SearchOutcome.errorDict msg =>
      ("Search failed: " ++ msg, [ProviderCall.search question 10])
    | SearchOutcome.issues rs =>
      (format_search_results rs, [ProviderCall.search question 10])

/-- The string `process_question` returns. -/
def process_question (p : Provider) (question : String) : String :=
  (process_question_t p question).1

/-- The provider calls `process_question` makes. -/
def process_question_calls (p : Provider) (question : String) : List ProviderCall :=
  (process_question_t p question).2

/-! ### Concrete fixtures for instantiating the theorems -/

/-- The listing body of `_format_search_results`: one `searchResultLine`
per record, concatenated. -/
def linesOf (l : List Record) : String :=
  l.foldr (fun issue acc => searchResultLine issue ++ acc) ""

/-- A provider whose calls always raise. -/
def trivialProvider : Provider :=
  { getIssue := fun _ => Except.error "service unavailable"
    searchIssues := fun _ _ => Except.error "service unavailable" }

/-- A record of type `"Bug"` with priority `"High"`. -/
def bugHighRecord : Record :=
  { key := some "SUP-129"
    fields := some
      { issuetype := some { name := some "Bug" }
        priority := some { name := some "High" }
        summary := some "Payment button does not respond"
        description := some "Steps: open checkout and press pay." } }

/-- A provider that returns `bugHighRecord` for every lookup. -/
def bugHighProvider : Provider :=
  { getIssue := fun _ => Except.ok bugHighRecord
    searchIssues := fun _ _ => Except.ok { issues := some [] } }

/-- A successfully retrieved record that happens to carry a top-level
`"error"` key. -/
def errorFieldRecord : Record :=
  { key := some "SUP-7"
    fields := some { summary := some "odd record" }
    error := some "stale payload" }

/-- A provider whose lookups succeed with `errorFieldRecord`. -/
def errorFieldProvider : Provider :=
  { getIssue := fun _ => Except.ok errorFieldRecord
    searchIssues := fun _ _ => Except.ok {} }

/-- A `"Story"`/`"Low"` record. -/
def storyLowRecordA : Record :=
  { key := some "DEV-1"
    fields := some
      { issuetype := some { name := some "Story" }
        priority := some { name := some "Low" }
        summary := some "First summary"
        description := some "First description" } }

/-- Another `"Story"`/`"Low"` record, differing from `storyLowRecordA`
in key, summary and description. -/
def storyLowRecordB : Record :=
  { key := some "OPS-42"
    fields := some
      { issuetype := some { name := some "Story" }
        priority := some { name := some "Low" }
        summary := some "Second summary"
        description := some "Second description" } }

/-- Seven search results, for the truncation example. -/
def sevenRecords : List Record :=
  [{ key := some "K-1", fields := some { summary := some "S1" } },
   { key := some "K-2", fields := some { summary := some "S2" } },
   { key := some "K-3", fields := some { summary := some "S3" } },
   { key := some "K-4", fields := some { summary := some "S4" } },
   { key := some "K-5", fields := some { summary := some "S5" } },
   { key := some "K-6", fields := some { summary := some "S6" } },
   { key := some "K-7", fields := some { summary := some "S7" } }]

/-! ### Support lemmas on the extractor -/

/-- A successful `matchAt` returns a prefix of `s` that matches the
bare identifier pattern. -/
theorem matchAt_spec (prev : Option Char) (s m : List Char)
    (h : matchAt prev s = some m) :
    (∃ suf, s = m ++ suf) ∧ patternMatches m = true := by
  unfold matchAt at h
  simp only [] at h
  split at h
  · rename_i hcond
    obtain ⟨-, hups⟩ := hcond
    split at h
    · rename_i rest2 hrest1
      split at h
      · rename_i hcond2
        obtain ⟨hdigs, -⟩ := hcond2
        obtain rfl : s.takeWhile Char.isUpper ++ '-' :: rest2.takeWhile Char.isDigit = m :=
          Option.some.inj h
        constructor
        · refine ⟨rest2.dropWhile Char.isDigit, ?_⟩
          conv_lhs => rw [← List.takeWhile_append_dropWhile (p := Char.isUpper) (l := s)]
          rw [hrest1]
          simp [List.takeWhile_append_dropWhile]
        · have hupsall : ∀ a ∈ s.takeWhile Char.isUpper, Char.isUpper a :=
            fun a ha => List.mem_takeWhile_imp ha
          have hdigall : ∀ a ∈ rest2.takeWhile Char.isDigit, Char.isDigit a :=
            fun a ha => List.mem_takeWhile_imp ha
          unfold patternMatches
          rw [List.takeWhile_append_of_pos hupsall, List.dropWhile_append_of_pos hupsall]
          have hdash : Char.isUpper '-' = false := by decide
          rw [List.takeWhile_cons_of_neg (by simp [hdash]), List.dropWhile_cons_of_neg (by simp [hdash])]
          rw [List.append_nil]
          cases hups' : s.takeWhile Char.isUpper with
          | nil => exact absurd hups' hups
          | cons u us =>
            simp only []
            cases hdigs' : rest2.takeWhile Char.isDigit with
            | nil => exact absurd hdigs' hdigs
            | cons d ds =>
              simp only [List.isEmpty_cons, Bool.not_false, Bool.true_and]
              rw [← hdigs']
              exact List.all_takeWhile
      · exact absurd h (by simp)
    · exact absurd h (by simp)
  · exact absurd h (by simp)

/-- A successful `searchFrom` returns a contiguous piece of `s` that
matches the bare identifier pattern. -/
theorem searchFrom_spec (prev : Option Char) (s m : List Char)
    (h : searchFrom prev s = some m) :
    (∃ pre suf, s = pre ++ (m ++ suf)) ∧ patternMatches m = true := by
  induction s generalizing prev with
  | nil =>
    rw [searchFrom] at h
    simp only [matchAt, List.takeWhile_nil, List.dropWhile_nil, ne_eq,
      not_true_eq_false, and_false, if_false] at h
    exact Option.noConfusion h
  | cons c rest ih =>
    rw [searchFrom] at h
    cases hm : matchAt prev (c :: rest) with
    | some m' =>
      rw [hm] at h
      obtain ⟨⟨suf, hsuf⟩, hpat⟩ := matchAt_spec prev (c :: rest) m' hm
      have hmm : m' = m := Option.some.inj h
      subst hmm
      exact ⟨⟨[], suf, by simpa using hsuf⟩, hpat⟩
    | none =>
      rw [hm] at h
      obtain ⟨⟨pre, suf, hsuf⟩, hpat⟩ := ih (some c) h
      exact ⟨⟨c :: pre, suf, by rw [List.cons_append, ← hsuf]⟩, hpat⟩

/-- The extracted key is a contiguous piece of the input text matching
the bare identifier pattern. -/
theorem extract_issue_key_spec (text k : String)
    (h : extract_issue_key text = some k) :
    (∃ pre suf, text.toList = pre ++ (k.toList ++ suf)) ∧
      patternMatches k.toList = true := by
  unfold extract_issue_key at h
  cases hs : searchFrom none text.toList with
  | none => rw [hs] at h; exact absurd h (by simp)
  | some m =>
    rw [hs] at h
    obtain rfl : String.mk m = k := Option.some.inj (by simpa using h)
    exact searchFrom_spec none text.toList m hs

/-- Any list matching the bare identifier pattern contains a hyphen. -/
theorem patternMatches_dash (l : List Char) (h : patternMatches l = true) :
    '-' ∈ l := by
  unfold patternMatches at h
  split at h
  · rename_i heq₁ heq₂
    have hmem : '-' ∈ l.dropWhile Char.isUpper := by
      rw [heq₂]; exact List.mem_cons_self _ _
    have hmem2 : '-' ∈ l.takeWhile Char.isUpper ++ l.dropWhile Char.isUpper :=
      List.mem_append.mpr (Or.inr hmem)
    rwa [List.takeWhile_append_dropWhile] at hmem2
  · exact absurd h (by simp)


/-! ### Support lemmas on the rules and formatters -/

/-- `suggest_solutions` unfolded: the urgency singleton followed by the
type-specific singleton or nothing. -/
theorem suggest_solutions_eq (r : Record) :
    suggest_solutions r =
      (if priority_scores r.priorityName ≤ 3 then [lowUrgencySolution]
        else [highUrgencySolution]) ++
        (if r.issueTypeName = "Bug" then [debuggingSolution]
          else if r.issueTypeName = "Story" then [implementationSolution]
          else []) := rfl

/-- The accumulator loop of `_format_search_results` appends one line
per record to the initial string. -/
theorem foldl_searchResultLine (l : List Record) (init : String) :
    l.foldl (fun response issue => response ++ searchResultLine issue) init
      = init ++ linesOf l := by
  induction l generalizing init with
  | nil => simp [linesOf]
  | cons i t ih => simp [linesOf, List.foldl_cons, ih, String.append_assoc]

/-! ### The claims -/

/-- C1 (amended): for every input text on which the boundary-anchored
identifier pattern `\b[A-Z]+-\d+\b` finds a match — that is, whenever
`_extract_issue_key` returns a key — the dispatcher performs exactly one
provider call, a single-record lookup with that key, and no search; the
key itself is a contiguous substring of the input matching the bare
identifier pattern (uppercase letters, hyphen, digits). -/
theorem C1_lookup_on_anchored_match (p : Provider) (text k : String)
    (h : extract_issue_key text = some k) :
    process_question_calls p text = [ProviderCall.getIssue k] ∧
      patternMatches k.toList = true ∧
      ∃ pre suf, text.toList = pre ++ (k.toList ++ suf) := by
  obtain ⟨hinf, hpat⟩ := extract_issue_key_spec text k h
  refine ⟨?_, hpat, hinf⟩
  unfold process_question_calls process_question_t
  rw [h]

/-- C1 witness: on `"What is the status of SUP-129?"` the dispatcher
performs exactly the lookup of `SUP-129`. -/
theorem C1_lookup_on_anchored_match_witness :
    process_question_calls trivialProvider "What is the status of SUP-129?"
        = [ProviderCall.getIssue "SUP-129"] ∧
      patternMatches "SUP-129".toList = true ∧
      ∃ pre suf,
        "What is the status of SUP-129?".toList = pre ++ ("SUP-129".toList ++ suf) :=
  C1_lookup_on_anchored_match trivialProvider "What is the status of SUP-129?"
    "SUP-129" (by decide)

/-- C1 counterexample: the input `"xAB-12"` contains the substring
`"AB-12"`, which matches the claim's identifier pattern (one or more
uppercase letters, a hyphen, one or more digits), yet the dispatcher
performs a search with the whole input and no lookup at all: the code's
pattern additionally requires word boundaries, and `x` before `AB-12`
defeats them. -/
theorem C1_counterexample :
    patternMatches "AB-12".toList = true ∧
      (∃ pre suf, "xAB-12".toList = pre ++ ("AB-12".toList ++ suf)) ∧
      process_question_calls trivialProvider "xAB-12"
        = [ProviderCall.search "xAB-12" 10] := by
  refine ⟨by decide, ⟨['x'], [], by decide⟩, by decide⟩

/-- C6: for every input text with no substring at all matching the bare
identifier pattern, the dispatcher performs exactly one provider call —
a search with the entire input text as the query and the default limit
10 — and never a lookup. -/
theorem C6_search_on_no_pattern (p : Provider) (text : String)
    (h : ∀ l : List Char,
      (∃ pre suf, text.toList = pre ++ (l ++ suf)) → patternMatches l = false) :
    process_question_calls p text = [ProviderCall.search text 10] := by
  have hex : extract_issue_key text = none := by
    cases he : extract_issue_key text with
    | none => rfl
    | some k =>
      obtain ⟨hinf, hpat⟩ := extract_issue_key_spec text k he
      have hfalse := h k.toList hinf
      rw [hpat] at hfalse
      exact Bool.noConfusion hfalse
  unfold process_question_calls process_question_t
  rw [hex]
  cases hs : search_jira_issues p text 10 <;> simp [hs]

/-- C6 witness: `"hello"` has no identifier-pattern substring, so the
dispatcher searches with the whole text and limit 10. -/
theorem C6_search_on_no_pattern_witness :
    process_question_calls trivialProvider "hello"
      = [ProviderCall.search "hello" 10] :=
  C6_search_on_no_pattern trivialProvider "hello" (by
    intro l hex
    cases hpm : patternMatches l with
    | false => rfl
    | true =>
      exfalso
      obtain ⟨pre, suf, hs⟩ := hex
      have hd : '-' ∈ l := patternMatches_dash l hpm
      have h1 : '-' ∈ pre ++ (l ++ suf) :=
        List.mem_append.mpr (Or.inr (List.mem_append.mpr (Or.inl hd)))
      rw [← hs] at h1
      exact absurd h1 (by decide))

/-- C2: `suggest_solutions` maps the priority name through the fixed
table `Highest=5, High=4, Medium=3, Low=2, Lowest=1` with every other
(or missing) priority scoring 0, and emits exactly one urgency entry:
the low-urgency schedule-for-next-sprint entry first when the score is
≤ 3, otherwise the high-urgency escalate entry first — never zero
urgency entries and never two. -/
theorem C2_urgency_banding (r : Record) :
    priority_scores "Highest" = 5 ∧ priority_scores "High" = 4 ∧
      priority_scores "Medium" = 3 ∧ priority_scores "Low" = 2 ∧
      priority_scores "Lowest" = 1 ∧
      (∀ p : String,
        p ∉ (["Highest", "High", "Medium", "Low", "Lowest"] : List String) →
          priority_scores p = 0) ∧
      (suggest_solutions r).countP isUrgencySolution = 1 ∧
      (suggest_solutions r).head? =
        some (if priority_scores r.priorityName ≤ 3 then lowUrgencySolution
          else highUrgencySolution) := by
  refine ⟨by decide, by decide, by decide, by decide, by decide, ?_, ?_, ?_⟩
  · intro p hp
    simp only [List.mem_cons, List.not_mem_nil, or_false, not_or] at hp
    obtain ⟨h1, h2, h3, h4, h5⟩ := hp
    simp [priority_scores, h1, h2, h3, h4, h5]
  · rw [suggest_solutions_eq]
    split <;> split <;> try split
    all_goals decide
  · rw [suggest_solutions_eq]
    by_cases hp : priority_scores r.priorityName ≤ 3 <;> simp [hp]

/-- C2 witness: at the all-defaults record (missing priority), the
unknown-priority conjunct applies to the empty name and the emitted
urgency entry is the low one. -/
theorem C2_urgency_banding_witness :
    priority_scores "" = 0 ∧
      (suggest_solutions {}).countP isUrgencySolution = 1 ∧
      (suggest_solutions {}).head? = some lowUrgencySolution := by
  have h := C2_urgency_banding {}
  exact ⟨h.2.2.2.2.2.1 "" (by decide), h.2.2.2.2.2.2.1,
    (h.2.2.2.2.2.2.2).trans (by decide)⟩

/-- C3: the result of `suggest_solutions` carries a second,
type-specific entry exactly when the issue type name is `"Bug"` (the
debugging entry) or `"Story"` (the breakdown entry); any other type
name — case variants, unlisted types, or the empty name a missing type
defaults to — yields no second entry. -/
theorem C3_type_augmentation (r : Record) :
    ((suggest_solutions r).length = 2 ↔
      (r.issueTypeName = "Bug" ∨ r.issueTypeName = "Story")) ∧
      (suggest_solutions r).drop 1 =
        (if r.issueTypeName = "Bug" then [debuggingSolution]
          else if r.issueTypeName = "Story" then [implementationSolution]
          else []) := by
  rw [suggest_solutions_eq]
  constructor
  · by_cases hb : r.issueTypeName = "Bug" <;>
      by_cases hs : r.issueTypeName = "Story" <;>
      by_cases hp : priority_scores r.priorityName ≤ 3 <;>
      simp [hb, hs, hp]
  · by_cases hb : r.issueTypeName = "Bug" <;>
      by_cases hs : r.issueTypeName = "Story" <;>
      by_cases hp : priority_scores r.priorityName ≤ 3 <;>
      simp [hb, hs, hp]

/-- C4: the urgency entry is at position one, the type-specific entry
(when present) at position two, the list has length one or two, and in
particular a `"Bug"`/`"High"` record yields the escalate entry followed
by the debugging entry, in that order. -/
theorem C4_output_order (r : Record) :
    ((suggest_solutions r).head? = some lowUrgencySolution ∨
      (suggest_solutions r).head? = some highUrgencySolution) ∧
      ((suggest_solutions r).drop 1 = [] ∨
        (suggest_solutions r).drop 1 = [debuggingSolution] ∨
        (suggest_solutions r).drop 1 = [implementationSolution]) ∧
      ((suggest_solutions r).length = 1 ∨ (suggest_solutions r).length = 2) ∧
      suggest_solutions bugHighRecord = [highUrgencySolution, debuggingSolution] := by
  refine ⟨?_, ?_, ?_, by decide⟩
  · rw [suggest_solutions_eq]
    by_cases hp : priority_scores r.priorityName ≤ 3 <;> simp [hp]
  · rw [suggest_solutions_eq]
    by_cases hb : r.issueTypeName = "Bug" <;>
      by_cases hs : r.issueTypeName = "Story" <;>
      by_cases hp : priority_scores r.priorityName ≤ 3 <;>
      simp [hb, hs, hp]
  · rw [suggest_solutions_eq]
    by_cases hb : r.issueTypeName = "Bug" <;>
      by_cases hs : r.issueTypeName = "Story" <;>
      by_cases hp : priority_scores r.priorityName ≤ 3 <;>
      simp [hb, hs, hp]

/-- C5: `_format_search_results` returns exactly the fixed sentence on
an empty list; on a non-empty list it returns a header reporting the
full count followed by one line for each of the first five records
only, so records beyond the fifth are dropped while the header still
reports the full count. -/
theorem C5_search_formatting :
    format_search_results [] = "No issues found matching your query." ∧
      (∀ rs : List Record, rs ≠ [] →
        format_search_results rs =
          ("Found " ++ toString rs.length ++ " issue(s):\n\n") ++
            linesOf (rs.take 5)) ∧
      (∀ rs extra : List Record, rs.length = 5 →
        format_search_results (rs ++ extra) =
          ("Found " ++ toString (5 + extra.length) ++ " issue(s):\n\n") ++
            linesOf rs) := by
  refine ⟨rfl, ?_, ?_⟩
  · intro rs hne
    unfold format_search_results
    rw [if_neg hne, foldl_searchResultLine]
  · intro rs extra hlen
    have hne : rs ++ extra ≠ [] := by
      intro hcon
      have hl := congrArg List.length hcon
      rw [List.length_append, hlen] at hl
      simp at hl
    unfold format_search_results
    rw [if_neg hne, foldl_searchResultLine, List.take_left' hlen,
      List.length_append, hlen]

/-- C5 witness: seven records produce the header `Found 7 issue(s):`
and exactly the five first lines. -/
theorem C5_search_formatting_witness :
    sevenRecords ≠ [] ∧ sevenRecords.length = 7 ∧
      format_search_results sevenRecords =
        ("Found " ++ toString sevenRecords.length ++ " issue(s):\n\n") ++
          linesOf (sevenRecords.take 5) ∧
      format_search_results sevenRecords =
        "Found 7 issue(s):\n\n- K-1: S1\n- K-2: S2\n- K-3: S3\n- K-4: S4\n- K-5: S5\n" :=
  ⟨by decide, by decide,
    C5_search_formatting.2.1 sevenRecords (by decide), by decide⟩

/-- C7: the dispatcher returns a string on every branch (the embedding
is a total function to `String`), and each provider exception — turned
into a value-level error dictionary inside `get_issue_details` or
`search_jira_issues` — is short-circuited into a one-line error
sentence containing the captured reason text. -/
theorem C7_error_short_circuit (p : Provider) (q k e : String) :
    (extract_issue_key q = some k → p.getIssue k = Except.error e →
      process_question p q =
        "Could not retrieve issue " ++ k ++ ": " ++
          ("Failed to get issue details: " ++ e)) ∧
      (extract_issue_key q = none → p.searchIssues q 10 = Except.error e →
        process_question p q =
          "Search failed: " ++ ("Failed to search issues: " ++ e)) := by
  constructor
  · intro hk hg
    unfold process_question process_question_t get_issue_details
    simp [hk, hg]
  · intro hk hs
    unfold process_question process_question_t search_jira_issues
    simp [hk, hs]

/-- C7 witness: a provider that always raises yields the two error
sentences, with the reason text embedded. -/
theorem C7_error_short_circuit_witness :
    process_question trivialProvider "What is SUP-129?" =
        "Could not retrieve issue " ++ "SUP-129" ++ ": " ++
          ("Failed to get issue details: " ++ "service unavailable") ∧
      process_question trivialProvider "hello" =
        "Search failed: " ++ ("Failed to search issues: " ++ "service unavailable") :=
  ⟨(C7_error_short_circuit trivialProvider "What is SUP-129?" "SUP-129"
      "service unavailable").1 (by decide) rfl,
    (C7_error_short_circuit trivialProvider "hello" "SUP-129"
      "service unavailable").2 (by decide) rfl⟩

/-- C8: `suggest_solutions` is deterministic — two invocations on an
identical record value yield identical ordered output lists. -/
theorem C8_deterministic (r₁ r₂ : Record) (h : r₁ = r₂) :
    suggest_solutions r₁ = suggest_solutions r₂ := by rw [h]

/-- C8 witness: instantiated at the `"Bug"`/`"High"` record. -/
theorem C8_deterministic_witness :
    suggest_solutions bugHighRecord = suggest_solutions bugHighRecord :=
  C8_deterministic bugHighRecord bugHighRecord rfl

/-- C9: the output of `suggest_solutions` depends only on the record's
priority name and issue type name: two records agreeing on those two
projections get identical suggestion lists, whatever their other
fields (in particular the description, though read, never influences
the output). -/
theorem C9_noninterference (r₁ r₂ : Record)
    (hp : r₁.priorityName = r₂.priorityName)
    (ht : r₁.issueTypeName = r₂.issueTypeName) :
    suggest_solutions r₁ = suggest_solutions r₂ := by
  rw [suggest_solutions_eq, suggest_solutions_eq, hp, ht]

/-- C9 witness: two `"Story"`/`"Low"` records differing in key, summary
and description get the same suggestions. -/
theorem C9_noninterference_witness :
    storyLowRecordA.key ≠ storyLowRecordB.key ∧
      storyLowRecordA.summaryText ≠ storyLowRecordB.summaryText ∧
      storyLowRecordA.descriptionText ≠ storyLowRecordB.descriptionText ∧
      suggest_solutions storyLowRecordA = suggest_solutions storyLowRecordB :=
  ⟨by decide, by decide, by decide,
    C9_noninterference storyLowRecordA storyLowRecordB rfl rfl⟩

/-- C10: the dispatcher classifies a lookup result as a failure exactly
when the returned dictionary carries a top-level `"error"` key: a
successfully retrieved record without the key is formatted with its
suggestions, while a successfully retrieved record that happens to
carry the key is reported with the could-not-retrieve sentence
instead. -/
theorem C10_error_key_detection (p : Provider) (q k : String) (r : Record)
    (hext : extract_issue_key q = some k)
    (hget : p.getIssue k = Except.ok r) :
    (r.error = none →
      process_question p q = format_response r (suggest_solutions r)) ∧
      (∀ msg, r.error = some msg →
        process_question p q = "Could not retrieve issue " ++ k ++ ": " ++ msg) := by
  constructor
  · intro herr
    unfold process_question process_question_t get_issue_details
    simp [hext, hget, herr]
  · intro msg herr
    unfold process_question process_question_t get_issue_details
    simp [hext, hget, herr]

/-- C10 witness: a successful lookup whose record carries a top-level
`"error"` key is reported as a failure, not formatted. -/
theorem C10_error_key_detection_witness :
    errorFieldRecord.error = some "stale payload" ∧
      process_question errorFieldProvider "Check SUP-7 please" =
        "Could not retrieve issue " ++ "SUP-7" ++ ": " ++ "stale payload" :=
  ⟨rfl, (C10_error_key_detection errorFieldProvider "Check SUP-7 please" "SUP-7"
      errorFieldRecord (by decide) rfl).2 "stale payload" rfl⟩

end JiraAgent
